/-
Verification of the epub-builder document assembly pipeline.

This file is a shallow embedding, in Lean 4, of the code in
`src/epub.rs`, `src/epub_content.rs`, `src/common.rs` and
`src/zip_command_or_library.rs` of the `epub-builder` repository.
Pure computations (identifier sanitization, the manifest / guide /
landmarks sequences computed by `render_opf` and `render_nav`, the
metadata update rules) are translated as Lean functions; the stateful
builder is explicit state passing over a `Builder` structure, where the
zip archive is represented by the ordered list of entry paths written to
it (entry byte contents are irrelevant to the properties proved here,
and template rendering is an external collaborator producing opaque
bytes).  The XML strings pushed by the Rust loops are kept as
structured records carrying exactly the fields interpolated into the
corresponding format string.
-/
import Mathlib

set_option linter.unusedVariables false

/-- The possible reference types of an EPUB page (`src/epub_content.rs`,
`enum ReferenceType`). -/
inductive ReferenceType where
  | Cover
  | TitlePage
  | Toc
  | Index
  | Glossary
  | Acknowledgements
  | Bibliography
  | Colophon
  | Copyright
  | Dedication
  | Epigraph
  | Foreword
  | Loi
  | Lot
  | Notes
  | Preface
  | Text
deriving DecidableEq, Repr

/-- The EPUB version (`src/epub.rs`, `enum Version`).  The Rust type
derives `PartialOrd` on the declaration order, so `V20 < V30`. -/
inductive Version where
  | V20
  | V30
deriving DecidableEq, Repr

/-- `version > Version::V20` under the derived ordering of `Version`. -/
def Version.gtV20 : Version → Bool
  | .V20 => false
  | .V30 => true

/-- A file added in the EPUB (`src/epub.rs`, `struct Content`). -/
structure Content where
  file : String
  mime : String
  itemref : Bool
  cover : Bool
  reftype : Option ReferenceType
  title : String
deriving DecidableEq, Repr

/-- `Content::new` (`src/epub.rs`): a fresh content record with all
flags cleared and an empty title. -/
def Content.new (file : String) (mime : String) : Content :=
  { file := file, mime := mime, itemref := false, cover := false,
    reftype := none, title := "" }

/-- The guide-section token of each reference type, from the `match` in
`render_opf` (`src/epub.rs` lines 476-494). -/
def guideToken : ReferenceType → String
  | .Cover => "cover"
  | .TitlePage => "title-page"
  | .Toc => "toc"
  | .Index => "index"
  | .Glossary => "glossary"
  | .Acknowledgements => "acknowledgements"
  | .Bibliography => "bibliography"
  | .Colophon => "colophon"
  | .Copyright => "copyright"
  | .Dedication => "dedication"
  | .Epigraph => "epigraph"
  | .Foreword => "foreword"
  | .Loi => "loi"
  | .Lot => "lot"
  | .Notes => "notes"
  | .Preface => "preface"
  | .Text => "text"

/-- The landmarks-section token of each reference type, from the
`match` in `render_nav` (`src/epub.rs` lines 570-588). -/
def landmarkToken : ReferenceType → String
  | .Cover => "cover"
  | .Text => "bodymatter"
  | .Toc => "toc"
  | .Bibliography => "bibliography"
  | .Epigraph => "epigraph"
  | .Foreword => "foreword"
  | .Preface => "preface"
  | .Notes => "endnotes"
  | .Loi => "loi"
  | .Lot => "lot"
  | .Colophon => "colophon"
  | .TitlePage => "titlepage"
  | .Index => "index"
  | .Glossary => "glossary"
  | .Copyright => "copyright-page"
  | .Acknowledgements => "acknowledgements"
  | .Dedication => "dedication"

/-- `is_id_char` (`src/epub.rs` lines 633-655): the allow-list of
characters legal in a generated identifier, a slightly permissive
rendition of the XML NCName character ranges.  Each disjunct below is
one disjunct of the Rust function, in the same order, expressed on the
character's Unicode scalar value. -/
def is_id_char (c : Char) : Bool :=
  let n := c.toNat
  (0x41 ≤ n && n ≤ 0x5A)        -- c.is_ascii_uppercase()
  || n == 0x5F                  -- '_'
  || (0x61 ≤ n && n ≤ 0x7A)     -- c.is_ascii_lowercase()
  || (0xC0 ≤ n && n ≤ 0xD6)
  || (0xD8 ≤ n && n ≤ 0xF6)
  || (0xF8 ≤ n && n ≤ 0x2FF)
  || (0x370 ≤ n && n ≤ 0x37D)
  || (0x37F ≤ n && n ≤ 0x1FFF)
  || (0x200C ≤ n && n ≤ 0x200D)
  || (0x2070 ≤ n && n ≤ 0x218F)
  || (0x2C00 ≤ n && n ≤ 0x2FEF)
  || (0x3001 ≤ n && n ≤ 0xD7FF)
  || (0xF900 ≤ n && n ≤ 0xFDCF)
  || (0xFDF0 ≤ n && n ≤ 0xFFFD)
  || (0x10000 ≤ n && n ≤ 0xEFFFF)
  || n == 0x2D                  -- '-'
  || n == 0x2E                  -- '.'
  || (0x30 ≤ n && n ≤ 0x39)     -- c.is_ascii_digit()
  || n == 0xB7
  || (0x300 ≤ n && n ≤ 0x36F)
  || (0x203F ≤ n && n ≤ 0x2040)

/-- `to_id` (`src/epub.rs` lines 658-660): Rust's
`s.replace(|c| !is_id_char(c), "_")` builds the output left to right,
pushing each non-matching character unchanged and the replacement
string `"_"` for each matching character. -/
def to_id (s : String) : String :=
  s.data.foldl (fun acc c => if is_id_char c then acc.push c else acc ++ "_") ""

/-- `escape_quote` (`src/common.rs`): replace every `'"'` by `&quot;`
(the Rust function short-circuits when no quote occurs, which is
observationally the unconditional replacement). -/
def escape_quote (s : String) : String :=
  s.data.foldl
    (fun acc c => if c = '"' then acc ++ "&quot;" else acc.push c) ""

/-- `html_escape::encode_text`, an external crate used by `render_opf`
on guide titles: escapes the text-significant characters `&`, `<`, `>`
and leaves everything else unchanged. -/
def encode_text (s : String) : String :=
  s.data.foldl
    (fun acc c =>
      if c = '&' then acc ++ "&amp;"
      else if c = '<' then acc ++ "&lt;"
      else if c = '>' then acc ++ "&gt;"
      else acc.push c) ""

/-- One `<item .../>` element of the manifest, carrying exactly the
fields interpolated by `render_opf` (`src/epub.rs` lines 458-466):
`coverProperty` records whether the `properties="cover-image"` marker
string is present. -/
structure OpfItem where
  id : String
  mime : String
  href : String
  coverProperty : Bool
deriving DecidableEq, Repr

/-- One `<reference .../>` element of the guide section
(`src/epub.rs` lines 496-502). -/
structure GuideRef where
  reftype : String
  title : String
  href : String
deriving DecidableEq, Repr

/-- One `<li><a epub:type=.../>...</li>` element of the landmarks
section (`src/epub.rs` lines 590-596). -/
structure Landmark where
  reftype : String
  href : String
  title : String
deriving DecidableEq, Repr

/-- The four sequences accumulated by the loop of `render_opf`
(`src/epub.rs` lines 440-504): the `optional` metadata strings pushed
for cover resources, the manifest `items`, the spine `itemrefs`
(recorded by the interpolated `idref`) and the `guide` references. -/
structure OpfAccum where
  optional : List String
  items : List OpfItem
  itemrefs : List String
  guide : List GuideRef
deriving DecidableEq, Repr

/-- The `properties` attribute computation of `render_opf`
(`src/epub.rs` lines 450-453): the `cover-image` property marker is
attached exactly for `(Version::V30, cover = true)`. -/
def coverProperties : Version → Bool → Bool
  | .V30, true => true
  | _, _ => false

/-- The slash normalization applied to `href` in `render_opf`:
Rust's `content.file.replace('\\', "/")`, built left to right like
`to_id`, pushing each non-matching character unchanged and the
replacement `"/"` for each backslash. -/
def normalizeHref (s : String) : String :=
  s.data.foldl (fun acc c => if c = '\\' then acc ++ "/" else acc.push c) ""

/-- The body of the `for content in &self.files` loop of `render_opf`
(`src/epub.rs` lines 444-504), acting on the accumulated sequences. -/
def processContent (version : Version) (acc : OpfAccum) (content : Content) :
    OpfAccum :=
  let id := if content.cover then "cover-image" else to_id content.file
  let properties := coverProperties version content.cover
  let optional :=
    if content.cover then
      acc.optional ++ ["<meta name=\"cover\" content=\"cover-image\"/>"]
    else acc.optional
  let items := acc.items ++
    [{ id := id, mime := content.mime, href := normalizeHref content.file,
       coverProperty := properties }]
  let itemrefs := if content.itemref then acc.itemrefs ++ [id] else acc.itemrefs
  let guide :=
    match content.reftype with
    | some r => acc.guide ++
        [{ reftype := guideToken r,
           title := escape_quote (encode_text content.title),
           href := content.file }]
    | none => acc.guide
  { optional := optional, items := items, itemrefs := itemrefs, guide := guide }

/-- The sequences computed by `render_opf` over the registered files,
before they are handed to the mustache template. -/
def render_opf_lists (version : Version) (files : List Content) : OpfAccum :=
  files.foldl (processContent version)
    { optional := [], items := [], itemrefs := [], guide := [] }

/-- The body of the landmarks loop of `render_nav`
(`src/epub.rs` lines 563-599): a file contributes a landmark when it
has a reference type and a non-empty title. -/
def landmarkStep (acc : List Landmark) (file : Content) : List Landmark :=
  match file.reftype with
  | some r =>
      if file.title = "" then acc
      else acc ++ [{ reftype := landmarkToken r, href := file.file,
                     title := file.title }]
  | none => acc

/-- The landmarks sequence computed by `render_nav`
(`src/epub.rs` lines 559-600): built only when `version > V20`. -/
def render_nav_landmarks (version : Version) (files : List Content) :
    List Landmark :=
  if version.gtV20 then files.foldl landmarkStep [] else []

/-- EPUB metadata (`src/epub.rs`, `struct Metadata`). -/
structure Metadata where
  title : String
  author : List String
  lang : String
  generator : String
  toc_name : String
  description : List String
  subject : List String
  license : Option String
deriving DecidableEq, Repr

/-- `Metadata::new` (`src/epub.rs`): the default metadata. -/
def Metadata.new : Metadata :=
  { title := "", author := [], lang := "en",
    generator := "Rust EPUB library", toc_name := "Table Of Contents",
    description := [], subject := [], license := none }

/-- The metadata kinds accepted by the builder (`src/epub.rs`,
`enum MetadataKind`). -/
inductive MetadataKind where
  | Author
  | Title
  | Lang
  | Generator
  | TocName
  | Subject
  | Description
  | License
deriving DecidableEq, Repr

/-- The metadata update of `Builder::metadata` (`src/epub.rs` lines
194-231): single-valued fields are overwritten; the multi-valued
fields author, description and subject append a non-empty value and
are reset to the empty list by the empty string. -/
def applyMetadata (m : Metadata) (key : MetadataKind) (value : String) :
    Metadata :=
  match key with
  | .Author =>
      if value = "" then { m with author := [] }
      else { m with author := m.author ++ [value] }
  | .Title => { m with title := value }
  | .Lang => { m with lang := value }
  | .Generator => { m with generator := value }
  | .Description =>
      if value = "" then { m with description := [] }
      else { m with description := m.description ++ [value] }
  | .Subject =>
      if value = "" then { m with subject := [] }
      else { m with subject := m.subject ++ [value] }
  | .License => { m with license := some value }
  | .TocName => { m with toc_name := value }

/-- Modelled from the spec: `toc.rs` (the `Element` navigation node) is
not among the provided sources.  Per §3 of the spec a NavElement is
`\x7b url, title, level, children \x7d` where a node owns its children
outright; `level` is the Rust `i32` seen in `EpubContent::level`. -/
inductive Element where
  | mk (url : String) (title : String) (level : Int)
       (children : List Element)

/-- The `url` field of a navigation element. -/
def Element.url : Element → String
  | .mk u _ _ _ => u

/-- The `title` field of a navigation element. -/
def Element.title : Element → String
  | .mk _ t _ _ => t

/-- The `level` field of a navigation element. -/
def Element.level : Element → Int
  | .mk _ _ l _ => l

/-- The `children` field of a navigation element. -/
def Element.children : Element → List Element
  | .mk _ _ _ c => c

/-- Modelled from the spec: `Element::new(url, title)` creates a node
at level 1 with no children (used with an empty title by
`EpubContent::new` in `src/epub_content.rs`). -/
def Element.new (url : String) (title : String) : Element :=
  .mk url title 1 []

/-- Modelled from the spec: `Element::level` returns the node with its
level replaced (used by `EpubContent::level`). -/
def Element.withLevel (e : Element) (level : Int) : Element :=
  .mk e.url e.title level e.children

/-- Modelled from the spec: `Element::child` appends a child node
(used by `EpubContent::child`); insertion order of children is
preserved. -/
def Element.child (e : Element) (c : Element) : Element :=
  .mk e.url e.title e.level (e.children ++ [c])

mutual

/-- All titles of the nodes of a navigation element's subtree, the
node itself included. -/
def Element.titles : Element → List String
  | .mk _ t _ ch => t :: titlesOfList ch

/-- All titles of the nodes of a forest of navigation elements. -/
def titlesOfList : List Element → List String
  | [] => []
  | e :: es => Element.titles e ++ titlesOfList es

end

/-- A content file handed to `add_content` (`src/epub_content.rs`,
`struct EpubContent`): its navigation element and optional reference
type.  The byte stream `content` is consumed opaquely by the archive
backend and is not part of the state observed here. -/
structure EpubContent where
  toc : Element
  reftype : Option ReferenceType

/-- `EpubContent::new` (`src/epub_content.rs`): level 1, no title, no
reference type. -/
def EpubContent.new (href : String) : EpubContent :=
  { toc := Element.new href "", reftype := none }

/-- `EpubContent::title` (`src/epub_content.rs`). -/
def EpubContent.title (c : EpubContent) (title : String) : EpubContent :=
  { c with toc := .mk c.toc.url title c.toc.level c.toc.children }

/-- `EpubContent::level` (`src/epub_content.rs`). -/
def EpubContent.level (c : EpubContent) (level : Int) : EpubContent :=
  { c with toc := c.toc.withLevel level }

/-- `EpubContent::child` (`src/epub_content.rs`). -/
def EpubContent.child (c : EpubContent) (elem : Element) : EpubContent :=
  { c with toc := c.toc.child elem }

/-- `EpubContent::reftype` (`src/epub_content.rs`). -/
def EpubContent.withReftype (c : EpubContent) (r : ReferenceType) :
    EpubContent :=
  { c with reftype := some r }

/-- The EPUB builder state (`src/epub.rs`, `struct Builder`).  The zip
backend is represented by the ordered list of entry paths written to
it (`zipEntries`); `toc` records, in order, the elements inserted into
the TOC tree by `Toc::add` — `toc.rs` is not among the provided
sources, and per spec §4.2 insertion never removes or retitles nodes,
so the nodes of the tree are exactly the nodes of the inserted
elements' subtrees. -/
structure Builder where
  version : Version
  zipEntries : List String
  files : List Content
  metadata : Metadata
  toc : List Element
  stylesheet : Bool
  inline_toc : Bool

/-- `Builder::new` (`src/epub.rs`): default version `V20`, the two
`META-INF` boilerplate entries written at once. -/
def Builder.new : Builder :=
  { version := .V20,
    zipEntries := ["META-INF/container.xml",
                   "META-INF/com.apple.ibooks.display-options.xml"],
    files := [], metadata := Metadata.new, toc := [],
    stylesheet := false, inline_toc := false }

/-- `Builder::epub_version` (`src/epub.rs`). -/
def Builder.epub_version (b : Builder) (version : Version) : Builder :=
  { b with version := version }

/-- `Builder::metadata` (`src/epub.rs`). -/
def Builder.set_metadata (b : Builder) (key : MetadataKind)
    (value : String) : Builder :=
  { b with metadata := applyMetadata b.metadata key value }

/-- `Builder::add_resource` (`src/epub.rs`): write the content under
`OEBPS/`, register a plain (non-spine) content record. -/
def Builder.add_resource (b : Builder) (path : String)
    (mime_type : String) : Builder :=
  { b with zipEntries := b.zipEntries ++ ["OEBPS/" ++ path],
           files := b.files ++ [Content.new path mime_type] }

/-- `Builder::add_cover_image` (`src/epub.rs`): like `add_resource`
but the record carries `cover = true`. -/
def Builder.add_cover_image (b : Builder) (path : String)
    (mime_type : String) : Builder :=
  { b with zipEntries := b.zipEntries ++ ["OEBPS/" ++ path],
           files := b.files ++
             [{ Content.new path mime_type with cover := true }] }

/-- `Builder::stylesheet` (`src/epub.rs`): register the stylesheet as
a resource at `stylesheet.css` with mime `text/css` and raise the
`stylesheet` flag. -/
def Builder.set_stylesheet (b : Builder) : Builder :=
  { b.add_resource "stylesheet.css" "text/css" with stylesheet := true }

/-- `Builder::inline_toc` (`src/epub.rs`): raise the flag, insert a
`toc.xhtml` element named after `toc_name` into the TOC tree, and
register a spine member with reference type `Toc` titled `toc_name`. -/
def Builder.inlineToc (b : Builder) : Builder :=
  { b with
    inline_toc := true,
    toc := b.toc ++ [Element.new "toc.xhtml" b.metadata.toc_name],
    files := b.files ++
      [{ Content.new "toc.xhtml" "application/xhtml+xml" with
         reftype := some .Toc, title := b.metadata.toc_name,
         itemref := true }] }

/-- `Builder::add_content` (`src/epub.rs` lines 367-383): write the
file under `OEBPS/`, register a spine member whose title is copied
from the TOC element only when a reference type is set, and insert the
element into the TOC tree only when its title is non-empty. -/
def Builder.add_content (b : Builder) (content : EpubContent) : Builder :=
  let file : Content :=
    { Content.new content.toc.url "application/xhtml+xml" with
      itemref := true, reftype := content.reftype,
      title := if content.reftype.isSome then content.toc.title else "" }
  { b with
    zipEntries := b.zipEntries ++ ["OEBPS/" ++ content.toc.url],
    files := b.files ++ [file],
    toc := if content.toc.title = "" then b.toc
           else b.toc ++ [content.toc] }

/-- `Builder::generate` (`src/epub.rs` lines 398-420): register a
dummy stylesheet when none was provided, then write the rendered
`content.opf`, `toc.ncx` and `nav.xhtml` entries, and `toc.xhtml` when
the inline TOC was requested.  The trailing `zip.generate(to)`
finalizes the archive to the output sink and writes no further
entry. -/
def Builder.generate (b : Builder) : Builder :=
  let b := if b.stylesheet then b else b.set_stylesheet
  let b := { b with zipEntries := b.zipEntries ++ ["OEBPS/content.opf"] }
  let b := { b with zipEntries := b.zipEntries ++ ["OEBPS/toc.ncx"] }
  let b := { b with zipEntries := b.zipEntries ++ ["OEBPS/nav.xhtml"] }
  if b.inline_toc then
    { b with zipEntries := b.zipEntries ++ ["OEBPS/toc.xhtml"] }
  else b

/-- Modelled from the spec: `zip_command.rs` (the external-tool
strategy) is not among the provided sources.  Per spec §4.3 it stages
entries and invokes an external packaging executable; its observable
state here is the configured command name and the ordered entry
paths. -/
structure ZipCommand where
  command : String
  entries : List String
deriving DecidableEq, Repr

/-- Modelled from the spec: `ZipCommand::command` sets the executable
name (used by `ZipCommandOrLibrary::new`). -/
def ZipCommand.withCommand (z : ZipCommand) (command : String) : ZipCommand :=
  { z with command := command }

/-- Modelled from the spec: the `Zip::write_file` of the external-tool
strategy appends one staged entry. -/
def ZipCommand.write_file (z : ZipCommand) (path : String) : ZipCommand :=
  { z with entries := z.entries ++ [path] }

/-- Modelled from the spec: the `Zip::generate` of the external-tool
strategy produces the archive's entries in the order written. -/
def ZipCommand.generate (z : ZipCommand) : List String :=
  z.entries

/-- Modelled from the spec: `zip_library.rs` (the embedded-library
strategy) is not among the provided sources.  Per spec §4.3 it builds
the archive in process; its observable state here is the ordered entry
paths. -/
structure ZipLibrary where
  entries : List String
deriving DecidableEq, Repr

/-- Modelled from the spec: the `Zip::write_file` of the
embedded-library strategy appends one entry. -/
def ZipLibrary.write_file (z : ZipLibrary) (path : String) : ZipLibrary :=
  { z with entries := z.entries ++ [path] }

/-- Modelled from the spec: the `Zip::generate` of the
embedded-library strategy produces the archive's entries in the order
written. -/
def ZipLibrary.generate (z : ZipLibrary) : List String :=
  z.entries

/-- The selecting wrapper (`src/zip_command_or_library.rs`,
`enum ZipCommandOrLibrary`). -/
inductive ZipCommandOrLibrary where
  | Command (z : ZipCommand)
  | Library (z : ZipLibrary)
deriving DecidableEq, Repr

/-- The environment of fallible collaborator outcomes consumed by
`ZipCommandOrLibrary::new`: the result of `ZipCommand::new()`, of the
probe `z.test()` on a given command strategy, and of
`ZipLibrary::new()`.  These constructors live in the missing
`zip_command.rs` / `zip_library.rs`, so their outcomes are taken as
parameters. -/
structure ZipEnv where
  zip_command_new : Except String ZipCommand
  test : ZipCommand → Except String Unit
  zip_library_new : Except String ZipLibrary

/-- The external-strategy half of `ZipCommandOrLibrary::new`
(`src/zip_command_or_library.rs` lines 46-51):
`ZipCommand::new().map(|z| \x7b z.command(command); z \x7d)
.and_then(|z| z.test().map(|_| z))`. -/
def externalProbe (env : ZipEnv) (command : String) :
    Except String ZipCommand :=
  ((env.zip_command_new.map (fun z => z.withCommand command)).bind
    (fun z => (env.test z).map (fun _ => z)))

/-- `ZipCommandOrLibrary::new` (`src/zip_command_or_library.rs` lines
45-54): wrap a successfully probed external strategy as `Command`,
otherwise fall back, via `or_else`, to `ZipLibrary::new()` wrapped as
`Library`. -/
def ZipCommandOrLibrary.new (env : ZipEnv) (command : String) :
    Except String ZipCommandOrLibrary :=
  match (externalProbe env command).map ZipCommandOrLibrary.Command with
  | .ok v => .ok v
  | .error _ => env.zip_library_new.map ZipCommandOrLibrary.Library

/-- How many times `ZipCommandOrLibrary::new` invokes the probe
`z.test()`: the `and_then` closure runs exactly when
`ZipCommand::new().map(...)` succeeded, i.e. exactly when
`ZipCommand::new()` succeeded. -/
def ZipCommandOrLibrary.probeCount (env : ZipEnv) (command : String) : Nat :=
  match env.zip_command_new with
  | .ok _ => 1
  | .error _ => 0

/-- How many times `ZipCommandOrLibrary::new` invokes the fallback
constructor `ZipLibrary::new()`: the `or_else` closure runs exactly
when the external construction-and-probe chain failed. -/
def ZipCommandOrLibrary.fallbackCount (env : ZipEnv) (command : String) :
    Nat :=
  match externalProbe env command with
  | .ok _ => 0
  | .error _ => 1

/-- The `Zip::write_file` of the wrapper
(`src/zip_command_or_library.rs` lines 25-30): delegate to the held
strategy. -/
def ZipCommandOrLibrary.write_file (z : ZipCommandOrLibrary)
    (path : String) : ZipCommandOrLibrary :=
  match z with
  | .Command c => .Command (c.write_file path)
  | .Library l => .Library (l.write_file path)

/-- The `Zip::generate` of the wrapper
(`src/zip_command_or_library.rs` lines 32-37): delegate to the held
strategy. -/
def ZipCommandOrLibrary.generate (z : ZipCommandOrLibrary) : List String :=
  match z with
  | .Command c => c.generate
  | .Library l => l.generate

/-- The manifest identifier given to a registered resource by the loop
of `render_opf`: the fixed `cover-image` for the cover, the sanitized
path otherwise. -/
def contentId (c : Content) : String :=
  if c.cover then "cover-image" else to_id c.file

/-- The manifest `<item>` produced for one registered resource by the
loop of `render_opf`. -/
def itemOf (version : Version) (c : Content) : OpfItem :=
  { id := contentId c, mime := c.mime, href := normalizeHref c.file,
    coverProperty := coverProperties version c.cover }

/-- The spine `idref` contributed by one registered resource: present
exactly for spine members. -/
def spineRefOf (c : Content) : Option String :=
  if c.itemref then some (contentId c) else none

/-- The guide `<reference>` contributed by one registered resource:
present exactly when a reference type is set, with the guide-section
token and the escaped title. -/
def guideEntryOf (c : Content) : Option GuideRef :=
  c.reftype.map (fun r =>
    { reftype := guideToken r,
      title := escape_quote (encode_text c.title),
      href := c.file })

/-- The `optional` metadata string contributed by one registered
resource: the cover `<meta>` element, for the cover only. -/
def optionalOf (c : Content) : Option String :=
  if c.cover then some "<meta name=\"cover\" content=\"cover-image\"/>"
  else none

/-- The landmarks entry contributed by one registered resource when
landmarks are emitted: present exactly when a reference type is set
and the title is non-empty, with the landmarks-section token. -/
def landmarkEntryOf (c : Content) : Option Landmark :=
  match c.reftype with
  | some r =>
      if c.title = "" then none
      else some { reftype := landmarkToken r, href := c.file,
                  title := c.title }
  | none => none

/-- Whether every node of the given TOC forest (roots and descendants
alike) carries a non-empty title. -/
def allTitlesNonempty (forest : List Element) : Bool :=
  (titlesOfList forest).all (fun t => !(t == ""))

/-- A spine member with a reference type but an empty title, as
produced by `add_content` on an `EpubContent` whose title was never
set (`EpubContent::new` followed by `reftype`). -/
def untitledTextContent : Content :=
  { file := "notes.xhtml", mime := "application/xhtml+xml",
    itemref := true, cover := false, reftype := some .Text, title := "" }

/-- An `add_content` argument titled `Chapter` carrying an
empty-titled child node, as built by
`EpubContent::new("chapter.xhtml", ...).title("Chapter")
.child(Element::new("chapter.xhtml#1", ""))`. -/
def chapterWithUntitledChild : EpubContent :=
  ((EpubContent.new "chapter.xhtml").title "Chapter").child
    (Element.new "chapter.xhtml#1" "")

/-- A spine member with reference type `Text` and a non-empty title. -/
def titledTextContent : Content :=
  { file := "chapter_1.xhtml", mime := "application/xhtml+xml",
    itemref := true, cover := false, reftype := some .Text,
    title := "Chapter 1" }

/-- A collaborator environment in which `ZipCommand::new()` succeeds
but the probe fails, and `ZipLibrary::new()` succeeds. -/
def probeFailEnv : ZipEnv :=
  { zip_command_new := .ok { command := "zip", entries := [] },
    test := fun _ => .error "probe failed",
    zip_library_new := .ok { entries := [] } }

theorem processContent_foldl_char (v : Version) (files : List Content)
    (acc : OpfAccum) :
    files.foldl (processContent v) acc =
      { optional := acc.optional ++ files.filterMap optionalOf,
        items := acc.items ++ files.map (itemOf v),
        itemrefs := acc.itemrefs ++ files.filterMap spineRefOf,
        guide := acc.guide ++ files.filterMap guideEntryOf } := by
  induction files generalizing acc with
  | nil => simp
  | cons c cs ih =>
      rw [List.foldl_cons, ih]
      cases hr : c.reftype <;> by_cases hc : c.cover <;>
        by_cases hi : c.itemref <;>
        simp [processContent, optionalOf, itemOf, spineRefOf, guideEntryOf,
          contentId, hr, hc, hi]

theorem render_opf_lists_char (v : Version) (files : List Content) :
    render_opf_lists v files =
      { optional := files.filterMap optionalOf,
        items := files.map (itemOf v),
        itemrefs := files.filterMap spineRefOf,
        guide := files.filterMap guideEntryOf } := by
  simp [render_opf_lists, processContent_foldl_char]

theorem landmarkStep_foldl_char (files : List Content)
    (acc : List Landmark) :
    files.foldl landmarkStep acc = acc ++ files.filterMap landmarkEntryOf := by
  induction files generalizing acc with
  | nil => simp
  | cons c cs ih =>
      rw [List.foldl_cons, ih]
      cases hr : c.reftype <;> by_cases ht : c.title = "" <;>
        simp [landmarkStep, landmarkEntryOf, hr, ht]

theorem render_nav_landmarks_V30_char (files : List Content) :
    render_nav_landmarks .V30 files = files.filterMap landmarkEntryOf := by
  simp [render_nav_landmarks, Version.gtV20, landmarkStep_foldl_char]

/-- C1 (counterexample): the claim that a resource with a reference
kind but an empty title produces no guide entry is false on the code:
a spine member with `reference_kind = Text` and an empty title still
produces the guide reference `(token "text", title "", href
"notes.xhtml")`. -/
theorem c1_guide_emitted_for_empty_title :
    untitledTextContent.title = "" ∧
    untitledTextContent.reftype = some .Text ∧
    (render_opf_lists .V20 [untitledTextContent]).guide =
      [{ reftype := "text", title := "", href := "notes.xhtml" }] :=
  ⟨rfl, rfl, rfl⟩

/-- C1 (amended): for every registered resource, the assembled
manifest's guide section contains a guide reference entry (with the
guide-section token, the escaped title, and the resource's href) if
and only if the resource has a `reference_kind` set; the title is not
examined, so a resource with a reference kind and an empty title
produces a guide entry whose title is empty. -/
theorem c1_guide_entries (v : Version) (files : List Content) :
    (render_opf_lists v files).guide = files.filterMap guideEntryOf := by
  simp [render_opf_lists_char]

/-- C2: for every builder state, when the version is `V20` the
rendered landmarks section is empty; when the version is `V30`, a
registered resource with `reference_kind = Text` and a non-empty title
produces a landmarks entry with token `bodymatter`, and (for either
version) a guide entry with token `text`. -/
theorem c2_version_gating :
    (∀ files : List Content, render_nav_landmarks .V20 files = []) ∧
    (∀ (files : List Content) (c : Content), c ∈ files →
      c.reftype = some .Text → c.title ≠ "" →
      ({ reftype := "bodymatter", href := c.file, title := c.title } :
          Landmark) ∈ render_nav_landmarks .V30 files ∧
      ∀ v, ({ reftype := "text",
              title := escape_quote (encode_text c.title),
              href := c.file } : GuideRef) ∈
          (render_opf_lists v files).guide) := by
  constructor
  · intro files
    simp [render_nav_landmarks, Version.gtV20]
  · intro files c hc hr ht
    constructor
    · rw [render_nav_landmarks_V30_char]
      exact List.mem_filterMap.mpr
        ⟨c, hc, by simp [landmarkEntryOf, landmarkToken, hr, ht]⟩
    · intro v
      have hg : (render_opf_lists v files).guide =
          files.filterMap guideEntryOf := by
        simp [render_opf_lists_char]
      rw [hg]
      exact List.mem_filterMap.mpr
        ⟨c, hc, by simp [guideEntryOf, guideToken, hr]⟩

/-- C2 (witness): instantiation of `c2_version_gating` on a concrete
`Text` spine member titled `Chapter 1`. -/
theorem c2_version_gating_witness :
    ({ reftype := "bodymatter", href := "chapter_1.xhtml",
       title := "Chapter 1" } : Landmark) ∈
      render_nav_landmarks .V30 [titledTextContent] ∧
    ({ reftype := "text", title := "Chapter 1",
       href := "chapter_1.xhtml" } : GuideRef) ∈
      (render_opf_lists .V20 [titledTextContent]).guide := by
  have h := c2_version_gating.2 [titledTextContent] titledTextContent
    (by simp) rfl (by decide)
  exact ⟨h.1, h.2 .V20⟩

/-- C4: for every registered resource, the manifest item id is the
fixed string `cover-image` when the resource's cover flag is set, and
the sanitized path `to_id file` otherwise, independently of what
`to_id` would return for the cover's path. -/
theorem c4_item_ids (v : Version) (files : List Content) :
    ((render_opf_lists v files).items).map OpfItem.id =
      files.map (fun c => if c.cover then "cover-image" else to_id c.file) := by
  simp [render_opf_lists_char, itemOf, contentId, Function.comp_def]

/-- C5: a manifest item carries the `cover-image` property marker
exactly when its resource's cover flag is set and the version is
`V30`; for `V20` no item carries the marker. -/
theorem c5_cover_property (v : Version) (files : List Content) :
    ((render_opf_lists v files).items).map OpfItem.coverProperty =
      files.map (fun c => decide (v = Version.V30) && c.cover) ∧
    ((render_opf_lists .V20 files).items).all
      (fun i => !i.coverProperty) = true := by
  constructor
  · simp only [render_opf_lists_char, List.map_map]
    refine List.map_congr_left (fun c _ => ?_)
    cases v <;> cases hc : c.cover <;>
      simp [itemOf, coverProperties, Function.comp_def, hc]
  · simp only [render_opf_lists_char, List.all_eq_true]
    intro i hi
    obtain ⟨c, _, rfl⟩ := List.mem_map.mp hi
    simp [itemOf, coverProperties]

theorem string_data_push (s : String) (c : Char) :
    (s.push c).data = s.data ++ [c] := rfl

theorem string_data_append (s t : String) :
    (s ++ t).data = s.data ++ t.data := rfl

theorem to_id_foldl_data (l : List Char) (acc : String) :
    (l.foldl (fun a c => if is_id_char c then a.push c else a ++ "_")
      acc).data =
      acc.data ++ l.map (fun c => if is_id_char c then c else '_') := by
  induction l generalizing acc with
  | nil => simp
  | cons c cs ih =>
      by_cases h : is_id_char c <;>
        simp [ih, h, string_data_push, string_data_append]

theorem to_id_data (s : String) :
    (to_id s).data = s.data.map (fun c => if is_id_char c then c else '_') := by
  simpa using to_id_foldl_data s.data ""

/-- C6: on the multi-valued metadata fields (author, subject,
description) a non-empty set appends the value and a set with the
empty string clears the whole list; in particular, setting author
three times with non-empty values and then once with the empty string
leaves the author list empty. -/
theorem c6_metadata_multivalued :
    (∀ (b : Builder) (v : String), v ≠ "" →
      (b.set_metadata .Author v).metadata.author =
          b.metadata.author ++ [v] ∧
      (b.set_metadata .Subject v).metadata.subject =
          b.metadata.subject ++ [v] ∧
      (b.set_metadata .Description v).metadata.description =
          b.metadata.description ++ [v]) ∧
    (∀ b : Builder,
      (b.set_metadata .Author "").metadata.author = [] ∧
      (b.set_metadata .Subject "").metadata.subject = [] ∧
      (b.set_metadata .Description "").metadata.description = []) ∧
    (∀ (b : Builder) (v1 v2 v3 : String), v1 ≠ "" → v2 ≠ "" → v3 ≠ "" →
      ((((b.set_metadata .Author v1).set_metadata .Author v2).set_metadata
          .Author v3).set_metadata .Author "").metadata.author = []) := by
  refine ⟨fun b v hv => ?_, fun b => ?_, fun b v1 v2 v3 _ _ _ => ?_⟩
  · simp [Builder.set_metadata, applyMetadata, hv]
  · simp [Builder.set_metadata, applyMetadata]
  · simp [Builder.set_metadata, applyMetadata]

/-- C6 (witness): instantiation of `c6_metadata_multivalued` on the
default builder with three concrete authors then the empty string. -/
theorem c6_metadata_multivalued_witness :
    (Builder.new.set_metadata .Author "Ann").metadata.author = ["Ann"] ∧
    ((((Builder.new.set_metadata .Author "Ann").set_metadata .Author
        "Ben").set_metadata .Author "Cyn").set_metadata .Author
        "").metadata.author = [] := by
  refine ⟨?_, c6_metadata_multivalued.2.2 Builder.new "Ann" "Ben" "Cyn"
    (by decide) (by decide) (by decide)⟩
  exact (c6_metadata_multivalued.1 Builder.new "Ann" (by decide)).1

/-- C7: the identifier sanitizer is a total deterministic function
that preserves the number of characters; every character outside the
fixed allow-list `is_id_char` (for example the space and the slash) is
replaced by an underscore, and every character inside it (in
particular ASCII letters, digits, `.`, `-` and `_`) passes through
unchanged. -/
theorem c7_sanitizer :
    (∀ s t : String, s = t → to_id s = to_id t) ∧
    (∀ s : String, (to_id s).length = s.length) ∧
    (∀ s : String,
      (to_id s).data = s.data.map (fun c => if is_id_char c then c else '_')) ∧
    (∀ c : Char,
      ((0x41 ≤ c.toNat ∧ c.toNat ≤ 0x5A) ∨
       (0x61 ≤ c.toNat ∧ c.toNat ≤ 0x7A) ∨
       (0x30 ≤ c.toNat ∧ c.toNat ≤ 0x39) ∨
       c = '.' ∨ c = '-' ∨ c = '_') → is_id_char c = true) ∧
    is_id_char ' ' = false ∧ is_id_char '/' = false := by
  refine ⟨fun s t h => h ▸ rfl, fun s => ?_, to_id_data, fun c h => ?_, by decide,
    by decide⟩
  · show (to_id s).data.length = s.data.length
    rw [to_id_data, List.length_map]
  · rcases h with h | h | h | rfl | rfl | rfl
    · simp only [is_id_char, Bool.or_eq_true, Bool.and_eq_true,
        decide_eq_true_eq, beq_iff_eq]
      omega
    · simp only [is_id_char, Bool.or_eq_true, Bool.and_eq_true,
        decide_eq_true_eq, beq_iff_eq]
      omega
    · simp only [is_id_char, Bool.or_eq_true, Bool.and_eq_true,
        decide_eq_true_eq, beq_iff_eq]
      omega
    · decide
    · decide
    · decide

/-- C7 (witness): instantiation of `c7_sanitizer` on a concrete path
containing a space and a slash, and on the character `a`. -/
theorem c7_sanitizer_witness :
    to_id "im g.png" = to_id "im g.png" ∧
    (to_id "caf/im g.png").length = ("caf/im g.png" : String).length ∧
    is_id_char 'a' = true :=
  ⟨c7_sanitizer.1 "im g.png" "im g.png" rfl,
   c7_sanitizer.2.1 "caf/im g.png",
   c7_sanitizer.2.2.2.1 'a' (by decide)⟩

/-- C3 (counterexample): the invariant that every TOC node was created
from a non-empty title is not preserved by `add_content`: adding
`chapter.xhtml` titled `Chapter` with an empty-titled child element
puts an empty-titled node into the TOC tree. -/
theorem c3_empty_titled_node_in_toc :
    allTitlesNonempty Builder.new.toc = true ∧
    chapterWithUntitledChild.toc.title = "Chapter" ∧
    allTitlesNonempty
      (Builder.new.add_content chapterWithUntitledChild).toc = false :=
  ⟨rfl, rfl, rfl⟩

/-- C3 (amended): for every call of `add_content`, if the content's
title is empty then no element is inserted into the TOC tree
(regardless of the content's level), yet the content is always
appended to the registered file list with its spine-membership flag
set, so it appears in the manifest items and spine references; if the
title is non-empty the content's element is inserted.  Hence every
element directly inserted into the TOC by `add_content` has a
non-empty title — though the tree may still contain empty-titled nodes
arriving as children of an inserted element. -/
theorem c3_add_content (b : Builder) (c : EpubContent) :
    ((b.add_content c).files = b.files ++
        [{ file := c.toc.url, mime := "application/xhtml+xml",
           itemref := true, cover := false, reftype := c.reftype,
           title := if c.reftype.isSome then c.toc.title else "" }]) ∧
    (c.toc.title = "" → (b.add_content c).toc = b.toc) ∧
    (c.toc.title ≠ "" → (b.add_content c).toc = b.toc ++ [c.toc]) ∧
    (∀ e ∈ (b.add_content c).toc,
      e ∈ b.toc ∨ (e = c.toc ∧ c.toc.title ≠ "")) ∧
    (∀ v, to_id c.toc.url ∈
      (render_opf_lists v (b.add_content c).files).itemrefs) ∧
    (∀ v, itemOf v
        { file := c.toc.url, mime := "application/xhtml+xml",
          itemref := true, cover := false, reftype := c.reftype,
          title := if c.reftype.isSome then c.toc.title else "" } ∈
      (render_opf_lists v (b.add_content c).files).items) := by
  refine ⟨rfl, fun h => ?_, fun h => ?_, fun e he => ?_, fun v => ?_,
    fun v => ?_⟩
  · simp [Builder.add_content, h]
  · simp [Builder.add_content, h]
  · by_cases h : c.toc.title = ""
    · exact Or.inl (by simpa [Builder.add_content, h] using he)
    · rw [show (b.add_content c).toc = b.toc ++ [c.toc] by
        simp [Builder.add_content, h]] at he
      rcases List.mem_append.mp he with h1 | h1
      · exact Or.inl h1
      · exact Or.inr ⟨List.mem_singleton.mp h1, h⟩
  · simp only [render_opf_lists_char]
    simp [Builder.add_content, List.filterMap_append, spineRefOf, contentId,
      Content.new]
  · simp only [render_opf_lists_char]
    simp [Builder.add_content, List.map_append, Content.new]

/-- C3 (witness): instantiation of `c3_add_content` on the default
builder, once with an untitled content file and once with the titled
`chapter.xhtml`. -/
theorem c3_add_content_witness :
    (Builder.new.add_content (EpubContent.new "notes.xhtml")).toc =
        Builder.new.toc ∧
    (Builder.new.add_content chapterWithUntitledChild).toc =
        Builder.new.toc ++ [chapterWithUntitledChild.toc] :=
  ⟨(c3_add_content Builder.new (EpubContent.new "notes.xhtml")).2.1 rfl,
   (c3_add_content Builder.new chapterWithUntitledChild).2.2.1 (by decide)⟩

/-- C8: constructing the selecting wrapper probes the external-tool
strategy at most once — exactly once when `ZipCommand::new()`
succeeds; a successful probe yields the `Command` wrapper around the
probed strategy with no fallback, while a failed construction or probe
triggers exactly one fallback to a freshly constructed
embedded-library strategy; a probe failure is never surfaced (any
surfaced error is the library constructor's), and subsequent
`write_file` / `generate` calls delegate to the held strategy. -/
theorem c8_wrapper_selection (env : ZipEnv) (command : String) :
    ZipCommandOrLibrary.probeCount env command ≤ 1 ∧
    (∀ z0, env.zip_command_new = .ok z0 →
      ZipCommandOrLibrary.probeCount env command = 1) ∧
    (∀ z0, env.zip_command_new = .ok z0 →
      env.test (z0.withCommand command) = .ok () →
      ZipCommandOrLibrary.new env command =
          .ok (.Command (z0.withCommand command)) ∧
      ZipCommandOrLibrary.fallbackCount env command = 0) ∧
    (∀ e, env.zip_command_new = .error e →
      ZipCommandOrLibrary.new env command =
          env.zip_library_new.map .Library ∧
      ZipCommandOrLibrary.fallbackCount env command = 1 ∧
      ZipCommandOrLibrary.probeCount env command = 0) ∧
    (∀ z0 e, env.zip_command_new = .ok z0 →
      env.test (z0.withCommand command) = .error e →
      ZipCommandOrLibrary.new env command =
          env.zip_library_new.map .Library ∧
      ZipCommandOrLibrary.fallbackCount env command = 1) ∧
    (∀ e, ZipCommandOrLibrary.new env command = .error e →
      env.zip_library_new = .error e) ∧
    (∀ z p, (ZipCommandOrLibrary.Command z).write_file p =
        .Command (z.write_file p)) ∧
    (∀ z p, (ZipCommandOrLibrary.Library z).write_file p =
        .Library (z.write_file p)) ∧
    (∀ z, (ZipCommandOrLibrary.Command z).generate = z.generate) ∧
    (∀ z, (ZipCommandOrLibrary.Library z).generate = z.generate) := by
  refine ⟨?_, fun z0 h => ?_, fun z0 h ht => ?_, fun e h => ?_,
    fun z0 e h ht => ?_, fun e hn => ?_, fun z p => rfl, fun z p => rfl,
    fun z => rfl, fun z => rfl⟩
  · cases h : env.zip_command_new <;>
      simp [ZipCommandOrLibrary.probeCount, h]
  · simp [ZipCommandOrLibrary.probeCount, h]
  · constructor
    · simp [ZipCommandOrLibrary.new, externalProbe, h, ht, Except.map,
        Except.bind]
    · simp [ZipCommandOrLibrary.fallbackCount, externalProbe, h, ht,
        Except.map, Except.bind]
  · refine ⟨?_, ?_, ?_⟩
    · simp [ZipCommandOrLibrary.new, externalProbe, h, Except.map,
        Except.bind]
    · simp [ZipCommandOrLibrary.fallbackCount, externalProbe, h,
        Except.map, Except.bind]
    · simp [ZipCommandOrLibrary.probeCount, h]
  · constructor
    · simp [ZipCommandOrLibrary.new, externalProbe, h, ht, Except.map,
        Except.bind]
    · simp [ZipCommandOrLibrary.fallbackCount, externalProbe, h, ht,
        Except.map, Except.bind]
  · unfold ZipCommandOrLibrary.new at hn
    cases hx : (externalProbe env command).map ZipCommandOrLibrary.Command with
    | ok v => rw [hx] at hn; exact absurd hn (by simp)
    | error e0 =>
        rw [hx] at hn
        cases hl : env.zip_library_new with
        | ok l => rw [hl] at hn; simp [Except.map] at hn
        | error e1 =>
            rw [hl] at hn
            simp [Except.map] at hn
            exact congrArg Except.error hn

/-- C8 (witness): instantiation of `c8_wrapper_selection` on an
environment whose probe fails: the wrapper falls back to the library
strategy once, and the probe failure is not surfaced. -/
theorem c8_wrapper_selection_witness :
    ZipCommandOrLibrary.new probeFailEnv "zip" =
        .ok (.Library { entries := [] }) ∧
    ZipCommandOrLibrary.probeCount probeFailEnv "zip" = 1 ∧
    ZipCommandOrLibrary.fallbackCount probeFailEnv "zip" = 1 := by
  have h := (c8_wrapper_selection probeFailEnv "zip").2.2.2.2.1
    { command := "zip", entries := [] } "probe failed" rfl rfl
  have hp := (c8_wrapper_selection probeFailEnv "zip").2.1
    { command := "zip", entries := [] } rfl
  exact ⟨h.1, hp, h.2⟩

/-- C9: a successful `generate` writes the rendered
`OEBPS/content.opf`, `OEBPS/toc.ncx` and `OEBPS/nav.xhtml` entries
unconditionally, writes `OEBPS/stylesheet.css` first when no
stylesheet was provided, and writes the `OEBPS/toc.xhtml` entry if and
only if the inline table of contents was requested before
generating. -/
theorem c9_generate_entries (b : Builder) :
    (b.generate).zipEntries =
      b.zipEntries ++
        ((if b.stylesheet then [] else ["OEBPS/stylesheet.css"]) ++
          (["OEBPS/content.opf", "OEBPS/toc.ncx", "OEBPS/nav.xhtml"] ++
            (if b.inline_toc then ["OEBPS/toc.xhtml"] else []))) ∧
    "OEBPS/content.opf" ∈ (b.generate).zipEntries ∧
    "OEBPS/toc.ncx" ∈ (b.generate).zipEntries ∧
    "OEBPS/nav.xhtml" ∈ (b.generate).zipEntries ∧
    ("OEBPS/toc.xhtml" ∈ (b.generate).zipEntries.drop b.zipEntries.length ↔
      b.inline_toc = true) := by
  have hmain : (b.generate).zipEntries =
      b.zipEntries ++
        ((if b.stylesheet then [] else ["OEBPS/stylesheet.css"]) ++
          (["OEBPS/content.opf", "OEBPS/toc.ncx", "OEBPS/nav.xhtml"] ++
            (if b.inline_toc then ["OEBPS/toc.xhtml"] else []))) := by
    by_cases hs : b.stylesheet <;> by_cases hi : b.inline_toc <;>
      simp [Builder.generate, Builder.set_stylesheet, Builder.add_resource,
        hs, hi]
  refine ⟨hmain, ?_, ?_, ?_, ?_⟩
  · rw [hmain]; simp
  · rw [hmain]; simp
  · rw [hmain]; simp
  · rw [hmain, List.drop_left]
    by_cases hs : b.stylesheet <;> by_cases hi : b.inline_toc <;>
      simp [hs, hi]

/-- C10: if `generate` runs on a builder whose stylesheet was never
set, it first registers an empty stylesheet with mime `text/css` at
`stylesheet.css`, so the archive contains an `OEBPS/stylesheet.css`
entry and the manifest carries a corresponding item with id
`stylesheet.css`. -/
theorem c10_default_stylesheet (b : Builder) (h : b.stylesheet = false) :
    (b.generate).files = b.files ++ [Content.new "stylesheet.css" "text/css"] ∧
    "OEBPS/stylesheet.css" ∈ (b.generate).zipEntries ∧
    ∀ v, ({ id := "stylesheet.css", mime := "text/css",
            href := "stylesheet.css", coverProperty := false } : OpfItem) ∈
        (render_opf_lists v (b.generate).files).items := by
  have hfiles : (b.generate).files =
      b.files ++ [Content.new "stylesheet.css" "text/css"] := by
    by_cases hi : b.inline_toc <;>
      simp [Builder.generate, Builder.set_stylesheet, Builder.add_resource,
        h, hi]
  refine ⟨hfiles, ?_, fun v => ?_⟩
  · by_cases hi : b.inline_toc <;>
      simp [Builder.generate, Builder.set_stylesheet, Builder.add_resource,
        h, hi]
  · simp only [render_opf_lists_char, hfiles, List.map_append]
    refine List.mem_append_right _ ?_
    have : itemOf v (Content.new "stylesheet.css" "text/css") =
        { id := "stylesheet.css", mime := "text/css",
          href := "stylesheet.css", coverProperty := false } := by
      cases v <;> simp [itemOf, contentId, coverProperties, Content.new] <;>
        exact ⟨rfl, rfl⟩
    simp [this]

/-- C10 (witness): instantiation of `c10_default_stylesheet` on the
default builder, which has no stylesheet. -/
theorem c10_default_stylesheet_witness :
    "OEBPS/stylesheet.css" ∈ (Builder.new.generate).zipEntries :=
  (c10_default_stylesheet Builder.new rfl).2.1
